import Mathlib

/-!
Verification of the EPA Walkability Index cleaning pipeline
(`clean_data.py`) against its natural-language specification.

The pipeline is a linear pandas script.  We shallow-embed the record
schema and each stage's record-level logic: a `Record` carries the
nullable numeric fields the claims mention (`Option ℚ` models a pandas
float column where `none` is NaN), a `Dataset` is an ordered
`List Record`, and each stage becomes a pure Lean function translated
from the corresponding lines of the script.
-/

namespace Walkability

/-- One row of the projected dataset (STEP 2 of `clean_data.py`): the
geographic key plus the numeric fields the claims are about.  `none`
models a pandas NaN / null cell. -/
structure Record where
  GEOID10 : String
  D3B : Option ℚ
  D4A : Option ℚ
  D2B_E8MIXA : Option ℚ
  D2A_EPHHM : Option ℚ
  D2A_Ranked : Option ℚ
  D2B_Ranked : Option ℚ
  D3B_Ranked : Option ℚ
  D4A_Ranked : Option ℚ
  NatWalkInd : Option ℚ
deriving DecidableEq, Repr

/-- The 31 required columns selected at STEP 2 (`key_columns` in
`clean_data.py`); indexing `df_raw` with this list fails if any is
absent. -/
def key_columns : List String :=
  ["GEOID10", "GEOID20", "STATEFP", "COUNTYFP", "TRACTCE", "BLKGRPCE",
   "CBSA", "CBSA_Name", "CSA", "CSA_Name",
   "TotPop", "HH", "CountHU",
   "D3B", "D4A", "D2B_E8MIXA", "D2A_EPHHM",
   "D2A_Ranked", "D2B_Ranked", "D3B_Ranked", "D4A_Ranked",
   "NatWalkInd",
   "Ac_Land", "TotEmp", "Workers",
   "AutoOwn0", "AutoOwn1", "AutoOwn2p",
   "Pct_AO0", "Pct_AO1", "Pct_AO2p"]

/-- The key walkability variables (`key_vars` at STEP 4). -/
def key_vars : List String :=
  ["D3B", "D4A", "D2B_E8MIXA", "D2A_EPHHM", "NatWalkInd"]

/-- Column access `df[var]` restricted to one record, for the variables
the validation stages read. -/
def getField (r : Record) : String → Option ℚ
  | "D3B" => r.D3B
  | "D4A" => r.D4A
  | "D2B_E8MIXA" => r.D2B_E8MIXA
  | "D2A_EPHHM" => r.D2A_EPHHM
  | "D2A_Ranked" => r.D2A_Ranked
  | "D2B_Ranked" => r.D2B_Ranked
  | "D3B_Ranked" => r.D3B_Ranked
  | "D4A_Ranked" => r.D4A_Ranked
  | "NatWalkInd" => r.NatWalkInd
  | _ => none

/-- Non-null values of column `var` across the dataset (what a pandas
reduction such as `min`/`max`/`describe` actually sees: NaN cells are
skipped). -/
def columnValues (ds : List Record) (var : String) : List ℚ :=
  ds.filterMap (fun r => getField r var)

/-- `df[var].isnull().sum()`: number of null cells of `var`. -/
def missingCount (ds : List Record) (var : String) : Nat :=
  (ds.filter (fun r => (getField r var).isNone)).length

/-- Pandas `Series.min` with default NaN-skipping: `none` only when no
non-null value exists. -/
def listMin : List ℚ → Option ℚ
  | [] => none
  | v :: vs =>
    match listMin vs with
    | none => some v
    | some m => some (min v m)

/-- Pandas `Series.max` with default NaN-skipping. -/
def listMax : List ℚ → Option ℚ
  | [] => none
  | v :: vs =>
    match listMax vs with
    | none => some v
    | some m => some (max v m)

/- STEP 3: duplicates. -/

/-- Worker for `df.drop_duplicates(subset=["GEOID10"], keep="first")`:
a row is kept iff its key has not been seen on an earlier row. -/
def dedupAux : List Record → List String → List Record
  | [], _ => []
  | r :: rs, seen =>
    if r.GEOID10 ∈ seen then dedupAux rs seen
    else r :: dedupAux rs (r.GEOID10 :: seen)

/-- `df.drop_duplicates(subset=["GEOID10"], keep="first")` (line 104). -/
def drop_duplicates (ds : List Record) : List Record :=
  dedupAux ds []

/-- The per-row flags of `df.duplicated(subset=["GEOID10"])`: true on
every row whose key already occurred on an earlier row. -/
def duplicatedFlags : List Record → List String → List Bool
  | [], _ => []
  | r :: rs, seen =>
    decide (r.GEOID10 ∈ seen) :: duplicatedFlags rs (r.GEOID10 :: seen)

/-- `duplicates_before = df.duplicated(subset=["GEOID10"]).sum()`
(line 96). -/
def duplicates_before (ds : List Record) : Nat :=
  (duplicatedFlags ds []).count true

/-- The per-row flags of `df.duplicated()` (full-row duplicates,
line 100) — computed as a diagnostic only. -/
def fullDuplicatedFlags : List Record → List Record → List Bool
  | [], _ => []
  | r :: rs, seen =>
    decide (r ∈ seen) :: fullDuplicatedFlags rs (r :: seen)

/-- `full_duplicates = df.duplicated().sum()` (line 100). -/
def full_duplicates (ds : List Record) : Nat :=
  (fullDuplicatedFlags ds []).count true

/- STEP 6: formula verification. -/

/-- `df["Calculated_NWI"]` per record (lines 222–227):
`D3B_Ranked/3 + D4A_Ranked/3 + D2B_Ranked/6 + D2A_Ranked/6`; any null
component makes the pandas arithmetic NaN. -/
def calculated_NWI (r : Record) : Option ℚ :=
  match r.D3B_Ranked, r.D4A_Ranked, r.D2B_Ranked, r.D2A_Ranked with
  | some w, some x, some y, some z => some (w / 3 + x / 3 + y / 6 + z / 6)
  | _, _, _, _ => none

/-- The non-NaN entries of `(df["NatWalkInd"] - df["Calculated_NWI"]).abs()`
(line 230): present exactly when the provided index and all four ranked
scores are non-null. -/
def validDiffs (ds : List Record) : List ℚ :=
  ds.filterMap (fun r =>
    match r.NatWalkInd, calculated_NWI r with
    | some n, some c => some |n - c|
    | _, _ => none)

/-- `max_diff = difference.max()` (line 231); NaN (`none`) when no valid
difference exists. -/
def maxAbsDiff (ds : List Record) : Option ℚ :=
  listMax (validDiffs ds)

/-- `mean_diff = difference.mean()` (line 232). -/
def meanAbsDiff (ds : List Record) : Option ℚ :=
  match validDiffs ds with
  | [] => none
  | l => some (l.sum / l.length)

/-- The discrepancy branch at lines 237–240: the warning is emitted
exactly when `max_diff < 0.01` fails (also when `max_diff` is NaN,
since NaN comparisons are false). -/
def formulaWarning (ds : List Record) : Bool :=
  match maxAbsDiff ds with
  | none => true
  | some m => decide ((1 : ℚ) / 100 ≤ m)

/-- A record extended with the temporary `Calculated_NWI` column that
STEP 6 adds. -/
structure RecordC extends Record where
  Calculated_NWI : Option ℚ
deriving DecidableEq

/-- Adding the `Calculated_NWI` column (line 222). -/
def step6_add (r : Record) : RecordC :=
  { r with Calculated_NWI := calculated_NWI r }

/-- Dropping the temporary column again (`df.drop("Calculated_NWI", axis=1)`,
line 266). -/
def step6_drop (r : RecordC) : Record :=
  r.toRecord

/-- Net effect of STEP 6 on the dataset: the column is added, used for
the diagnostic, and dropped. -/
def step6_dataset (ds : List Record) : List Record :=
  (ds.map step6_add).map step6_drop

/- STEP 7: categorization. -/

/-- `categorize_walkability` (lines 272–282), applied to the composite
index: breakpoints 5.75 = 23/4, 10.5 = 21/2, 15.25 = 61/4. -/
def categorize_walkability : Option ℚ → String
  | none => "Unknown"
  | some score =>
    if score ≤ 23 / 4 then "Least Walkable"
    else if score ≤ 21 / 2 then "Below Average Walkable"
    else if score ≤ 61 / 4 then "Above Average Walkable"
    else "Most Walkable"

/-- The five labels `categorize_walkability` can produce. -/
def allLabels : List String :=
  ["Unknown", "Least Walkable", "Below Average Walkable",
   "Above Average Walkable", "Most Walkable"]

/-- `df["Walkability_Category"].value_counts()[l]`: how many records of
the dataset carry label `l`. -/
def countLabel (ds : List Record) (l : String) : Nat :=
  (ds.map (fun r => categorize_walkability r.NatWalkInd)).count l

/-- A cleaned record: the projected fields plus the category column
added at line 284. -/
structure CatRecord extends Record where
  Walkability_Category : String
deriving DecidableEq

/-- `df["Walkability_Category"] = df["NatWalkInd"].apply(categorize_walkability)`
per record. -/
def addCategory (r : Record) : CatRecord :=
  { r with Walkability_Category := categorize_walkability r.NatWalkInd }

/-- The dataset exported at STEP 9, as a function of the dataset as
selected at STEP 2: STEP 3 dedups, STEPs 4, 5, 8 and 10 only compute
diagnostics, STEP 6 adds and drops `Calculated_NWI`, and STEP 7 adds the
category column. -/
def exportedDataset (ds : List Record) : List CatRecord :=
  (step6_dataset (drop_duplicates ds)).map addCategory

/- STEP 5: range validation. -/

/-- `expected_ranges` (lines 172–178): the only fields the range check
examines, each with its inclusive documented domain. -/
def expected_ranges : List (String × ℚ × ℚ) :=
  [("D2A_Ranked", 1, 20), ("D2B_Ranked", 1, 20), ("D3B_Ranked", 1, 20),
   ("D4A_Ranked", 1, 20), ("NatWalkInd", 1, 20)]

/-- The fields the range validator iterates over. -/
def rangeCheckedFields : List String :=
  expected_ranges.map (fun e => e.1)

/-- The in-range test of lines 182–184:
`actual_min >= min_val and actual_max <= max_val`; with an all-NaN
column the comparisons are against NaN and fail. -/
def rangeOK (ds : List Record) (e : String × ℚ × ℚ) : Bool :=
  match listMin (columnValues ds e.1), listMax (columnValues ds e.1) with
  | some mn, some mx => decide (e.2.1 ≤ mn) && decide (mx ≤ e.2.2)
  | _, _ => false

/-- The fields reported out of range (status `✗`) by STEP 5. -/
def rangeWarnings (ds : List Record) : List String :=
  (expected_ranges.filter (fun e => !(rangeOK ds e))).map (fun e => e.1)

/- STEP 8: summary statistics for D4A, and the STEP 5 histogram filter. -/

/-- The values `df["D4A"].describe()` is computed over at line 315:
every non-null D4A cell (pandas `describe` skips only NaN). -/
def summaryValuesD4A (ds : List Record) : List ℚ :=
  columnValues ds "D4A"

/-- The `count` row of `describe()` for D4A. -/
def summaryCountD4A (ds : List Record) : Nat :=
  (summaryValuesD4A ds).length

/-- The `min` row of `describe()` for D4A. -/
def summaryMinD4A (ds : List Record) : Option ℚ :=
  listMin (summaryValuesD4A ds)

/-- The STEP 5 histogram data for D4A (line 201):
`data[data > -99999]`, the one place the sentinel is filtered out. -/
def histValuesD4A (ds : List Record) : List ℚ :=
  (columnValues ds "D4A").filter (fun v => decide ((-99999 : ℚ) < v))

/-- Modelled from the spec (for comparison only): the D4A `min`
statistic as the claim describes it, computed with sentinel values
excluded.  No such computation exists in STEP 8 of the source. -/
def specMinD4A_sentinelExcluded (ds : List Record) : Option ℚ :=
  listMin ((summaryValuesD4A ds).filter (fun v => !(v == (-99999 : ℚ))))

/-- Modelled from the spec (for comparison only): the D4A `count`
statistic with sentinel values excluded. -/
def specCountD4A_sentinelExcluded (ds : List Record) : Nat :=
  ((summaryValuesD4A ds).filter (fun v => !(v == (-99999 : ℚ)))).length

/- STEP 10: the before/after comparison artifact. -/

/-- Reading a metric row out of the comparison table. -/
def lookupMetric (t : List (String × Nat)) (m : String) : Option Nat :=
  (t.find? (fun e => e.1 == m)).map (fun e => e.2)

/-- The `Before` column of `comparison_data` (lines 392–401) paired with
its metric names: raw row/column counts, the STEP 3 duplicate count, and
hardcoded zeros for the per-field missing counts (the source comments
`Assuming no missing in the sample`). -/
def comparison_before (rawLen rawCols : Nat) (ds0 : List Record) :
    List (String × Nat) :=
  [("Total Records", rawLen),
   ("Total Columns", rawCols),
   ("Duplicates", duplicates_before ds0),
   ("Missing (D3B)", 0),
   ("Missing (D4A)", 0),
   ("Missing (D2B_E8MIXA)", 0),
   ("Missing (D2A_EPHHM)", 0),
   ("Missing (NatWalkInd)", 0)]

/-- The `After` column of `comparison_data` (lines 402–411): cleaned
row count, 32 columns (31 selected plus the category column), zero
duplicates, and freshly recomputed `isnull` sums over the cleaned
dataset. -/
def comparison_after (ds : List Record) : List (String × Nat) :=
  [("Total Records", ds.length),
   ("Total Columns", 32),
   ("Duplicates", 0),
   ("Missing (D3B)", missingCount ds "D3B"),
   ("Missing (D4A)", missingCount ds "D4A"),
   ("Missing (D2B_E8MIXA)", missingCount ds "D2B_E8MIXA"),
   ("Missing (D2A_EPHHM)", missingCount ds "D2A_EPHHM"),
   ("Missing (NatWalkInd)", missingCount ds "NatWalkInd")]

/- STEPs 1–2: loading and column projection, at schema level. -/

/-- The raw table as far as the schema check is concerned: its column
names and its row count. -/
structure RawTable where
  columns : List String
  nrows : Nat

/-- The required columns absent from the raw table; `df_raw[key_columns]`
(line 75) raises a `KeyError` naming exactly these. -/
def missingColumns (raw : RawTable) : List String :=
  key_columns.filter (fun c => !(raw.columns.contains c))

/-- STEPs 1–2 as a function from the raw table to the list of files
written so far paired with the outcome: STEP 1 always writes
`images/step1_raw_data_info.txt` (lines 38–43) before STEP 2 projects;
if required columns are missing, line 75 aborts the run with an error
naming them, before the STEP 2 plot or any later artifact is written. -/
def runLoadProject (raw : RawTable) :
    List String × Except (List String) Unit :=
  if missingColumns raw = [] then
    (["images/step1_raw_data_info.txt", "images/step2_column_selection.png"],
     Except.ok ())
  else
    (["images/step1_raw_data_info.txt"], Except.error (missingColumns raw))

/-- Whether the run aborted with a fatal error. -/
def isAborted (x : Except (List String) Unit) : Bool :=
  match x with
  | Except.error _ => true
  | Except.ok _ => false

/-- The column names carried by the fatal error, if any. -/
def errorColumns (x : Except (List String) Unit) : List String :=
  match x with
  | Except.error e => e
  | Except.ok _ => []

/- Concrete records and datasets used by witnesses and counterexamples. -/

/-- A fully populated record builder: ranked scores from the spec's
formula example, with composite index `nwi`. -/
def exFormulaRec (g : String) (nwi : ℚ) : Record :=
  { GEOID10 := g, D3B := some 100, D4A := some 500,
    D2B_E8MIXA := some (1/2), D2A_EPHHM := some (1/2),
    D2A_Ranked := some 6, D2B_Ranked := some 15,
    D3B_Ranked := some 12, D4A_Ranked := some 9,
    NatWalkInd := some nwi }

/-- A record whose D4A holds the transit sentinel. -/
def exSentinelRec : Record :=
  { exFormulaRec "010010201001" (21/2) with D4A := some (-99999) }

/-- A record with a null D3B cell. -/
def exMissingRec : Record :=
  { exFormulaRec "010010201002" (21/2) with D3B := none }

/-- Two-record dataset: one sentinel D4A row and one ordinary row with
D4A = 300. -/
def exSentinelDs : List Record :=
  [exSentinelRec, { exFormulaRec "010010201003" (21/2) with D4A := some 300 }]

/-- One-record dataset with a missing D3B value. -/
def exMissingDs : List Record :=
  [exMissingRec]

/-- A dataset whose NatWalkInd is out of the documented [1, 20] domain,
so STEP 5 flags `NatWalkInd`. -/
def exOutOfRangeDs : List Record :=
  [{ exFormulaRec "010010201004" 25 with }]

/-- A raw table exposing only `GEOID10`, so 30 required columns are
absent. -/
def exRawMissing : RawTable :=
  { columns := ["GEOID10"], nrows := 5 }

/-! General lemmas about the embedded operations. -/

theorem listMax_isSome {l : List ℚ} (h : l ≠ []) : ∃ m, listMax l = some m := by
  cases l with
  | nil => exact absurd rfl h
  | cons v vs =>
    cases hm : listMax vs with
    | none => exact ⟨v, by simp [listMax, hm]⟩
    | some m => exact ⟨max v m, by simp [listMax, hm]⟩

theorem listMax_mem {l : List ℚ} {m : ℚ} (h : listMax l = some m) : m ∈ l := by
  induction l generalizing m with
  | nil => simp [listMax] at h
  | cons v vs ih =>
    cases hm : listMax vs with
    | none =>
      rw [listMax, hm] at h
      simp at h
      simp [h]
    | some m' =>
      rw [listMax, hm] at h
      simp at h
      rcases max_choice v m' with hc | hc
      · rw [← h, hc]; exact List.mem_cons_self _ _
      · rw [← h, hc]; exact List.mem_cons_of_mem _ (ih hm)

theorem le_listMax {l : List ℚ} {d m : ℚ} (hd : d ∈ l) (h : listMax l = some m) :
    d ≤ m := by
  induction l generalizing m with
  | nil => simp at hd
  | cons v vs ih =>
    cases hm : listMax vs with
    | none =>
      cases vs with
      | nil =>
        rw [listMax, hm] at h
        simp at h hd
        rw [hd, ← h]
      | cons w ws =>
        obtain ⟨m', hm'⟩ := listMax_isSome (l := w :: ws) (by simp)
        rw [hm'] at hm
        cases hm
    | some m' =>
      rw [listMax, hm] at h
      simp at h
      rcases List.mem_cons.mp hd with hv | hv
      · rw [hv, ← h]
        exact le_max_left v m'
      · calc d ≤ m' := ih hv hm
          _ ≤ m := by rw [← h]; exact le_max_right v m'

theorem dedupAux_filter (ds : List Record) :
    ∀ (seen : List String) (k : String),
      (dedupAux ds seen).filter (fun r => r.GEOID10 == k) =
        if k ∈ seen then []
        else (ds.filter (fun r => r.GEOID10 == k)).take 1 := by
  induction ds with
  | nil => intro seen k; simp [dedupAux]
  | cons r rs ih =>
    intro seen k
    by_cases hseen : r.GEOID10 ∈ seen
    · rw [dedupAux, if_pos hseen, ih seen k]
      by_cases hk : k ∈ seen
      · simp [hk]
      · have hrk : ¬ r.GEOID10 = k := fun h => hk (h ▸ hseen)
        have hkr : ¬ k = r.GEOID10 := fun h => hrk h.symm
        simp [hk, List.filter_cons, hkr, hrk]
    · rw [dedupAux, if_neg hseen]
      by_cases hrk : r.GEOID10 = k
      · have hk : k ∉ seen := hrk ▸ hseen
        simp [List.filter_cons, hrk, ih, hk]
      · have hkr : ¬ k = r.GEOID10 := fun h => hrk h.symm
        by_cases hk : k ∈ seen
        · simp [List.filter_cons, hrk, ih, hk, hkr]
        · simp [List.filter_cons, hrk, ih, hk, hkr]

theorem dedupAux_sublist (ds : List Record) :
    ∀ seen : List String, (dedupAux ds seen).Sublist ds := by
  induction ds with
  | nil => intro seen; simp [dedupAux]
  | cons r rs ih =>
    intro seen
    by_cases hseen : r.GEOID10 ∈ seen
    · rw [dedupAux, if_pos hseen]
      exact (ih seen).cons r
    · rw [dedupAux, if_neg hseen]
      exact (ih (r.GEOID10 :: seen)).cons₂ r

theorem mem_dedupAux_not_seen (ds : List Record) :
    ∀ (seen : List String) (r : Record),
      r ∈ dedupAux ds seen → r.GEOID10 ∉ seen := by
  induction ds with
  | nil => intro seen r hr; simp [dedupAux] at hr
  | cons x xs ih =>
    intro seen r hr
    by_cases hseen : x.GEOID10 ∈ seen
    · rw [dedupAux, if_pos hseen] at hr
      exact ih seen r hr
    · rw [dedupAux, if_neg hseen] at hr
      rcases List.mem_cons.mp hr with h | h
      · rw [h]; exact hseen
      · intro hmem
        exact ih (x.GEOID10 :: seen) r h (List.mem_cons_of_mem _ hmem)

theorem dedupAux_pairwise_key (ds : List Record) :
    ∀ seen : List String,
      (dedupAux ds seen).Pairwise (fun a b => a.GEOID10 ≠ b.GEOID10) := by
  induction ds with
  | nil => intro seen; simp [dedupAux]
  | cons x xs ih =>
    intro seen
    by_cases hseen : x.GEOID10 ∈ seen
    · rw [dedupAux, if_pos hseen]; exact ih seen
    · rw [dedupAux, if_neg hseen]
      refine List.Pairwise.cons ?_ (ih (x.GEOID10 :: seen))
      intro b hb heq
      exact mem_dedupAux_not_seen xs (x.GEOID10 :: seen) b hb
        (heq ▸ List.mem_cons_self _ _)

theorem step6_dataset_eq (ds : List Record) : step6_dataset ds = ds := by
  unfold step6_dataset
  rw [List.map_map]
  have : step6_drop ∘ step6_add = id := by
    funext r
    rfl
  rw [this, List.map_id]

theorem categorize_mem_allLabels (o : Option ℚ) :
    categorize_walkability o ∈ allLabels := by
  cases o with
  | none => simp [categorize_walkability, allLabels]
  | some v =>
    simp only [categorize_walkability, allLabels]
    by_cases h1 : v ≤ 23 / 4
    · simp [h1]
    · by_cases h2 : v ≤ 21 / 2
      · simp [h1, h2]
      · by_cases h3 : v ≤ 61 / 4
        · simp [h1, h2, h3]
        · simp [h1, h2, h3]

theorem sum_label_counts (ds : List Record) :
    (allLabels.map (fun l => countLabel ds l)).sum = ds.length := by
  induction ds with
  | nil => simp [countLabel]
  | cons r rs ih =>
    have hmem := categorize_mem_allLabels r.NatWalkInd
    have hstep : ∀ l : String, countLabel (r :: rs) l =
        countLabel rs l +
          if categorize_walkability r.NatWalkInd = l then 1 else 0 := by
      intro l
      simp [countLabel, List.count_cons]
    simp only [allLabels, List.map_cons, List.map_nil, List.sum_cons,
      List.sum_nil, List.length_cons] at ih ⊢
    simp only [hstep]
    simp only [allLabels, List.mem_cons, List.not_mem_nil, or_false] at hmem
    rcases hmem with h | h | h | h | h <;> rw [h] <;> simp <;> omega

theorem categorize_eq_least (v : ℚ) :
    categorize_walkability (some v) = "Least Walkable" ↔ v ≤ 23 / 4 := by
  simp only [categorize_walkability]
  by_cases h1 : v ≤ 23 / 4
  · simp [h1]
  · by_cases h2 : v ≤ 21 / 2
    · simp [h1, h2]
    · by_cases h3 : v ≤ 61 / 4
      · simp [h1, h2, h3]
      · simp [h1, h2, h3]

theorem categorize_eq_below (v : ℚ) :
    categorize_walkability (some v) = "Below Average Walkable" ↔
      23 / 4 < v ∧ v ≤ 21 / 2 := by
  simp only [categorize_walkability]
  by_cases h1 : v ≤ 23 / 4
  · simp [h1, not_lt.mpr h1]
  · by_cases h2 : v ≤ 21 / 2
    · simp [h1, h2, not_le.mp h1]
    · by_cases h3 : v ≤ 61 / 4
      · simp [h1, h2, h3]
      · simp [h1, h2, h3]

theorem categorize_eq_above (v : ℚ) :
    categorize_walkability (some v) = "Above Average Walkable" ↔
      21 / 2 < v ∧ v ≤ 61 / 4 := by
  constructor
  · intro h
    by_cases h1 : v ≤ 23 / 4
    · simp [categorize_walkability, h1] at h
    · by_cases h2 : v ≤ 21 / 2
      · simp [categorize_walkability, h1, h2] at h
      · by_cases h3 : v ≤ 61 / 4
        · exact ⟨not_le.mp h2, h3⟩
        · simp [categorize_walkability, h1, h2, h3] at h
  · rintro ⟨ha, hb⟩
    have h1 : ¬ v ≤ 23 / 4 := by intro h; linarith
    have h2 : ¬ v ≤ 21 / 2 := not_le.mpr ha
    simp [categorize_walkability, h1, h2, hb]

theorem categorize_eq_most (v : ℚ) :
    categorize_walkability (some v) = "Most Walkable" ↔ 61 / 4 < v := by
  constructor
  · intro h
    by_cases h1 : v ≤ 23 / 4
    · simp [categorize_walkability, h1] at h
    · by_cases h2 : v ≤ 21 / 2
      · simp [categorize_walkability, h1, h2] at h
      · by_cases h3 : v ≤ 61 / 4
        · simp [categorize_walkability, h1, h2, h3] at h
        · exact not_le.mp h3
  · intro hlt
    have h1 : ¬ v ≤ 23 / 4 := by intro h; linarith
    have h2 : ¬ v ≤ 21 / 2 := by intro h; linarith
    have h3 : ¬ v ≤ 61 / 4 := not_le.mpr hlt
    simp [categorize_walkability, h1, h2, h3]

/-! Claim theorems. -/

/-- C1: `categorize_walkability` maps a null composite index to
`Unknown` and each value `v ∈ [1, 20]` to exactly one of the four
labels via half-open breakpoints whose boundaries belong to the lower
bucket: `v ≤ 5.75 ↔ Least Walkable`, `5.75 < v ≤ 10.5 ↔ Below Average
Walkable`, `10.5 < v ≤ 15.25 ↔ Above Average Walkable`,
`15.25 < v ↔ Most Walkable`; in particular the boundary values 5.75,
10.5 and 15.25 fall in the lower bucket, and the four intervals are
contiguous and exhaustive over `[1, 20]`. -/
theorem c1_categorizer_breakpoints (v : ℚ) (h1 : 1 ≤ v) (h2 : v ≤ 20) :
    categorize_walkability none = "Unknown"
    ∧ (categorize_walkability (some v) = "Least Walkable" ↔ v ≤ 23 / 4)
    ∧ (categorize_walkability (some v) = "Below Average Walkable" ↔
        23 / 4 < v ∧ v ≤ 21 / 2)
    ∧ (categorize_walkability (some v) = "Above Average Walkable" ↔
        21 / 2 < v ∧ v ≤ 61 / 4)
    ∧ (categorize_walkability (some v) = "Most Walkable" ↔ 61 / 4 < v)
    ∧ categorize_walkability (some (23 / 4)) = "Least Walkable"
    ∧ categorize_walkability (some (21 / 2)) = "Below Average Walkable"
    ∧ categorize_walkability (some (61 / 4)) = "Above Average Walkable"
    ∧ categorize_walkability (some 20) = "Most Walkable" := by
  refine ⟨rfl, categorize_eq_least v, categorize_eq_below v,
    categorize_eq_above v, categorize_eq_most v, ?_, ?_, ?_, ?_⟩
  · exact (categorize_eq_least _).mpr le_rfl
  · exact (categorize_eq_below _).mpr ⟨by norm_num, le_rfl⟩
  · exact (categorize_eq_above _).mpr ⟨by norm_num, le_rfl⟩
  · exact (categorize_eq_most _).mpr (by norm_num)

/-- C1 witness: the theorem instantiated at v = 3. -/
theorem c1_categorizer_breakpoints_witness :
    (1 : ℚ) ≤ 3 ∧ (3 : ℚ) ≤ 20 ∧
      (categorize_walkability none = "Unknown"
      ∧ (categorize_walkability (some 3) = "Least Walkable" ↔ (3 : ℚ) ≤ 23 / 4)
      ∧ (categorize_walkability (some 3) = "Below Average Walkable" ↔
          23 / 4 < (3 : ℚ) ∧ (3 : ℚ) ≤ 21 / 2)
      ∧ (categorize_walkability (some 3) = "Above Average Walkable" ↔
          21 / 2 < (3 : ℚ) ∧ (3 : ℚ) ≤ 61 / 4)
      ∧ (categorize_walkability (some 3) = "Most Walkable" ↔ 61 / 4 < (3 : ℚ))
      ∧ categorize_walkability (some (23 / 4)) = "Least Walkable"
      ∧ categorize_walkability (some (21 / 2)) = "Below Average Walkable"
      ∧ categorize_walkability (some (61 / 4)) = "Above Average Walkable"
      ∧ categorize_walkability (some 20) = "Most Walkable") :=
  ⟨by norm_num, by norm_num,
    c1_categorizer_breakpoints 3 (by norm_num) (by norm_num)⟩

/-- C10: the categorization is total over all non-null inputs, not only
over [1, 20]: every value ≤ 5.75 (including 0 and negative values) maps
to Least Walkable, every value > 15.25 (including values above 20) maps
to Most Walkable, every record receives one of the five labels, and the
per-label counts sum to the number of records. -/
theorem c10_categorizer_total (v w : ℚ) (hv : v ≤ 23 / 4) (hw : 61 / 4 < w)
    (o : Option ℚ) (ds : List Record) :
    categorize_walkability (some v) = "Least Walkable"
    ∧ categorize_walkability (some w) = "Most Walkable"
    ∧ categorize_walkability (some 0) = "Least Walkable"
    ∧ categorize_walkability (some (-5)) = "Least Walkable"
    ∧ categorize_walkability (some 25) = "Most Walkable"
    ∧ categorize_walkability o ∈ allLabels
    ∧ (allLabels.map (fun l => countLabel ds l)).sum = ds.length := by
  refine ⟨(categorize_eq_least v).mpr hv, (categorize_eq_most w).mpr hw,
    (categorize_eq_least 0).mpr (by norm_num),
    (categorize_eq_least (-5)).mpr (by norm_num),
    (categorize_eq_most 25).mpr (by norm_num),
    categorize_mem_allLabels o, sum_label_counts ds⟩

/-- C10 witness: the theorem instantiated at v = 0, w = 20, a null
index and the concrete two-record dataset. -/
theorem c10_categorizer_total_witness :
    (0 : ℚ) ≤ 23 / 4 ∧ 61 / 4 < (20 : ℚ) ∧
      (categorize_walkability (some 0) = "Least Walkable"
      ∧ categorize_walkability (some 20) = "Most Walkable"
      ∧ categorize_walkability (some 0) = "Least Walkable"
      ∧ categorize_walkability (some (-5)) = "Least Walkable"
      ∧ categorize_walkability (some 25) = "Most Walkable"
      ∧ categorize_walkability none ∈ allLabels
      ∧ (allLabels.map (fun l => countLabel exSentinelDs l)).sum =
          exSentinelDs.length) :=
  ⟨by norm_num, by norm_num,
    c10_categorizer_total 0 20 (by norm_num) (by norm_num) none exSentinelDs⟩

/-- C3: `drop_duplicates` keeps, for every GEOID10 key, exactly the
first-encountered row with all of that row's field values, in original
order (the output is a sublist of the input), and discards every later
row with the same key.  The characterization is purely in terms of the
key: restricted to any key `k`, the output is the first element of the
input's rows with key `k`.  In particular dedup decisions depend only
on GEOID10 equality, never on the other fields; the full-row duplicate
count `full_duplicates` is a separate diagnostic that the output does
not depend on. -/
theorem c3_dedup_first_wins (ds : List Record) (k : String) :
    (drop_duplicates ds).filter (fun r => r.GEOID10 == k) =
        ((ds.filter (fun r => r.GEOID10 == k)).take 1)
    ∧ (drop_duplicates ds).Sublist ds := by
  refine ⟨?_, dedupAux_sublist ds []⟩
  have h := dedupAux_filter ds [] k
  simpa using h

/-- C4: after deduplication the GEOID10 key is unique across the
dataset — no two distinct records of `drop_duplicates ds` share a key —
and this uniqueness is preserved through the remaining stages to the
exported dataset. -/
theorem c4_key_uniqueness (ds : List Record) :
    ((drop_duplicates ds).Pairwise fun a b => a.GEOID10 ≠ b.GEOID10)
    ∧ ((exportedDataset ds).Pairwise fun a b => a.GEOID10 ≠ b.GEOID10) := by
  refine ⟨dedupAux_pairwise_key ds [], ?_⟩
  unfold exportedDataset
  rw [step6_dataset_eq, List.pairwise_map]
  exact dedupAux_pairwise_key ds []

/-- C5: geographic completeness — every record that survives
deduplication appears in the exported dataset (with its field values
intact, extended by the category label), and the exported row count
equals the post-dedup row count: no later stage imputes or drops a row
because of nulls. -/
theorem c5_completeness (ds : List Record) (r : Record)
    (hr : r ∈ drop_duplicates ds) :
    (exportedDataset ds).length = (drop_duplicates ds).length
    ∧ ∃ cr ∈ exportedDataset ds, cr.toRecord = r
        ∧ cr.Walkability_Category = categorize_walkability r.NatWalkInd := by
  unfold exportedDataset
  rw [step6_dataset_eq]
  exact ⟨List.length_map _ _,
    addCategory r, List.mem_map_of_mem _ hr, rfl, rfl⟩

/-- C5 witness: the theorem instantiated at a one-record dataset. -/
theorem c5_completeness_witness :
    exSentinelRec ∈ drop_duplicates [exSentinelRec]
    ∧ ((exportedDataset [exSentinelRec]).length =
          (drop_duplicates [exSentinelRec]).length
      ∧ ∃ cr ∈ exportedDataset [exSentinelRec], cr.toRecord = exSentinelRec
          ∧ cr.Walkability_Category =
              categorize_walkability exSentinelRec.NatWalkInd) := by
  have hr : exSentinelRec ∈ drop_duplicates [exSentinelRec] := by
    simp [drop_duplicates, dedupAux]
  exact ⟨hr, c5_completeness [exSentinelRec] exSentinelRec hr⟩

/-- C2: STEP 6 recomputes the composite index per record with weights
1/3, 1/3, 1/6, 1/6 of the four ranked scores, takes absolute
differences from the provided NatWalkInd, reports their maximum (an
actual maximum of the differences) and their mean, and emits the
mismatch warning iff the maximum difference is ≥ 0.01; the stage's net
effect on the dataset is the identity (the temporary column is added
and dropped, no record is modified) and it never fails.  On the spec's
example, ranked scores D3B = 12, D4A = 9, D2B = 15, D2A = 6 recompute
to 10.5; a provided value of 10.5 passes and 10.52 warns. -/
theorem c2_formula_verifier (ds : List Record) (hne : validDiffs ds ≠ []) :
    (∃ m, maxAbsDiff ds = some m ∧ m ∈ validDiffs ds
        ∧ (∀ d ∈ validDiffs ds, d ≤ m)
        ∧ (formulaWarning ds = true ↔ 1 / 100 ≤ m))
    ∧ meanAbsDiff ds = some ((validDiffs ds).sum / (validDiffs ds).length)
    ∧ step6_dataset ds = ds
    ∧ calculated_NWI (exFormulaRec "g" (21 / 2)) = some (21 / 2)
    ∧ formulaWarning [exFormulaRec "g" (21 / 2)] = false
    ∧ formulaWarning [exFormulaRec "g" (263 / 25)] = true := by
  obtain ⟨m, hm⟩ := listMax_isSome hne
  have hmax : maxAbsDiff ds = some m := hm
  refine ⟨⟨m, hmax, listMax_mem hm, fun d hd => le_listMax hd hm, ?_⟩,
    ?_, step6_dataset_eq ds, ?_, ?_, ?_⟩
  · rw [formulaWarning, hmax]
    simp
  · rw [meanAbsDiff]
    cases h : validDiffs ds with
    | nil => exact absurd h hne
    | cons a l => rfl
  · norm_num [calculated_NWI, exFormulaRec]
  · norm_num [formulaWarning, maxAbsDiff, validDiffs, calculated_NWI,
      exFormulaRec, listMax, abs]
  · norm_num [formulaWarning, maxAbsDiff, validDiffs, calculated_NWI,
      exFormulaRec, listMax, abs]

/-- C2 witness: the theorem instantiated at the one-record dataset
whose provided index 10.52 differs from the recomputed 10.5 by 0.02. -/
theorem c2_formula_verifier_witness :
    validDiffs [exFormulaRec "g" (263 / 25)] ≠ []
    ∧ ((∃ m, maxAbsDiff [exFormulaRec "g" (263 / 25)] = some m
          ∧ m ∈ validDiffs [exFormulaRec "g" (263 / 25)]
          ∧ (∀ d ∈ validDiffs [exFormulaRec "g" (263 / 25)], d ≤ m)
          ∧ (formulaWarning [exFormulaRec "g" (263 / 25)] = true ↔ 1 / 100 ≤ m))
      ∧ meanAbsDiff [exFormulaRec "g" (263 / 25)] =
          some ((validDiffs [exFormulaRec "g" (263 / 25)]).sum /
            (validDiffs [exFormulaRec "g" (263 / 25)]).length)
      ∧ step6_dataset [exFormulaRec "g" (263 / 25)] = [exFormulaRec "g" (263 / 25)]
      ∧ calculated_NWI (exFormulaRec "g" (21 / 2)) = some (21 / 2)
      ∧ formulaWarning [exFormulaRec "g" (21 / 2)] = false
      ∧ formulaWarning [exFormulaRec "g" (263 / 25)] = true) := by
  have hne : validDiffs [exFormulaRec "g" (263 / 25)] ≠ [] := by
    norm_num [validDiffs, calculated_NWI, exFormulaRec, Option.some_ne_none]
  exact ⟨hne, c2_formula_verifier [exFormulaRec "g" (263 / 25)] hne⟩

/-- C6 counterexample: STEP 8's `describe()` statistics for D4A are NOT
computed with sentinel rows excluded.  On a two-record dataset with D4A
values -99999 and 300, the summary min is -99999 and the summary count
is 2, while the sentinel-excluded statistics the claim describes would
be 300 and 1. -/
theorem c6_summary_sentinel_cex :
    summaryMinD4A exSentinelDs = some (-99999)
    ∧ specMinD4A_sentinelExcluded exSentinelDs = some 300
    ∧ summaryMinD4A exSentinelDs ≠ specMinD4A_sentinelExcluded exSentinelDs
    ∧ summaryCountD4A exSentinelDs = 2
    ∧ specCountD4A_sentinelExcluded exSentinelDs = 1 := by
  have h1 : summaryMinD4A exSentinelDs = some (-99999) := by
    norm_num [summaryMinD4A, summaryValuesD4A, columnValues, exSentinelDs,
      exSentinelRec, exFormulaRec, getField, listMin]
  have h2 : specMinD4A_sentinelExcluded exSentinelDs = some 300 := by
    norm_num [specMinD4A_sentinelExcluded, summaryValuesD4A, columnValues,
      exSentinelDs, exSentinelRec, exFormulaRec, getField, listMin]
  refine ⟨h1, h2, ?_, ?_, ?_⟩
  · rw [h1, h2]
    norm_num
  · norm_num [summaryCountD4A, summaryValuesD4A, columnValues, exSentinelDs,
      exSentinelRec, exFormulaRec, getField, List.filterMap_cons]
  · norm_num [specCountD4A_sentinelExcluded, summaryValuesD4A, columnValues,
      exSentinelDs, exSentinelRec, exFormulaRec, getField, List.filterMap_cons]

/-- C6 amended: sentinel D4A values remain included in the values STEP
8's summary statistics are computed over (and in the summary count);
the sentinel is excluded only from the STEP 5 distribution
visualization, and sentinel rows remain in the dataset. -/
theorem c6_summary_includes_sentinel (ds : List Record) (r : Record)
    (hr : r ∈ ds) (hs : r.D4A = some (-99999)) :
    (-99999 : ℚ) ∈ summaryValuesD4A ds
    ∧ (-99999 : ℚ) ∉ histValuesD4A ds
    ∧ 1 ≤ summaryCountD4A ds := by
  have hmem : (-99999 : ℚ) ∈ summaryValuesD4A ds :=
    List.mem_filterMap.mpr ⟨r, hr, by rw [show getField r "D4A" = r.D4A from rfl, hs]⟩
  refine ⟨hmem, ?_, ?_⟩
  · intro hmem'
    have := (List.mem_filter.mp hmem').2
    simp at this
  · exact Nat.succ_le_of_lt (List.length_pos.mpr (List.ne_nil_of_mem hmem))

/-- C6 amended witness: the theorem instantiated at the two-record
sentinel dataset. -/
theorem c6_summary_includes_sentinel_witness :
    exSentinelRec ∈ exSentinelDs
    ∧ exSentinelRec.D4A = some (-99999)
    ∧ ((-99999 : ℚ) ∈ summaryValuesD4A exSentinelDs
      ∧ (-99999 : ℚ) ∉ histValuesD4A exSentinelDs
      ∧ 1 ≤ summaryCountD4A exSentinelDs) := by
  have hr : exSentinelRec ∈ exSentinelDs := by simp [exSentinelDs]
  exact ⟨hr, rfl, c6_summary_includes_sentinel exSentinelDs exSentinelRec hr rfl⟩

/-- C7 counterexample: the range validator performs no observed min/max
computation for D4A at all — `expected_ranges` covers exactly the four
ranked scores and the composite index, and D4A is not among the checked
fields — so the claim's premise that sentinels are excluded from "the
observed min/max computation for D4A" refers to a computation that does
not exist. -/
theorem c7_range_fields_cex :
    rangeCheckedFields =
        ["D2A_Ranked", "D2B_Ranked", "D3B_Ranked", "D4A_Ranked", "NatWalkInd"]
    ∧ "D4A" ∉ rangeCheckedFields := by
  decide

/-- C7 amended: D4A is not among the range-validated fields, so on
every input dataset no range warning is ever emitted for D4A; in
particular a record with the transit sentinel -99999 never triggers a
range warning for that field. -/
theorem c7_sentinel_never_range_warned (ds : List Record) (w : String)
    (hw : w ∈ rangeWarnings ds) :
    "D4A" ∉ rangeCheckedFields ∧ w ≠ "D4A" := by
  refine ⟨by decide, ?_⟩
  unfold rangeWarnings at hw
  obtain ⟨e, he, hfe⟩ := List.mem_map.mp hw
  have he' : e ∈ expected_ranges := List.mem_of_mem_filter he
  rw [← hfe]
  simp only [expected_ranges, List.mem_cons, List.not_mem_nil, or_false] at he'
  rcases he' with h | h | h | h | h <;> rw [h] <;> decide

/-- C7 amended witness: the theorem instantiated at a dataset whose
NatWalkInd is out of range, so the warning list is nonempty. -/
theorem c7_sentinel_never_range_warned_witness :
    "NatWalkInd" ∈ rangeWarnings exOutOfRangeDs
    ∧ ("D4A" ∉ rangeCheckedFields ∧ "NatWalkInd" ≠ "D4A") := by
  have hw : "NatWalkInd" ∈ rangeWarnings exOutOfRangeDs := by
    norm_num [rangeWarnings, rangeOK, expected_ranges, columnValues,
      exOutOfRangeDs, exFormulaRec, getField, listMin, listMax]
  exact ⟨hw, c7_sentinel_never_range_warned exOutOfRangeDs "NatWalkInd" hw⟩

/-- C8 counterexample: the Before column's per-field missing counts are
hardcoded zeros, not the counts the missing-value classifier produced.
On a dataset with one null D3B cell, the classifier counts 1 missing
value, but the comparison artifact's Before column reports 0. -/
theorem c8_before_missing_cex :
    lookupMetric (comparison_before 1 31 exMissingDs) "Missing (D3B)" = some 0
    ∧ missingCount exMissingDs "D3B" = 1
    ∧ lookupMetric (comparison_before 1 31 exMissingDs) "Missing (D3B)" ≠
        some (missingCount exMissingDs "D3B") := by
  have h1 : lookupMetric (comparison_before 1 31 exMissingDs) "Missing (D3B)" =
      some 0 := rfl
  have h2 : missingCount exMissingDs "D3B" = 1 := rfl
  refine ⟨h1, h2, ?_⟩
  rw [h1, h2]
  simp

/-- C8 amended: the comparison artifact has the stated metric rows and
relays the duplicate count the deduplicator produced and the loader's
record counts, but its Before per-field missing counts are hardcoded 0
rather than the classifier's counts; its After missing counts equal the
classifier's counts recomputed over the cleaned dataset. -/
theorem c8_audit_relay (rawLen rawCols : Nat) (ds : List Record)
    (v : String) (hv : v ∈ key_vars) :
    lookupMetric (comparison_before rawLen rawCols ds) "Duplicates" =
        some (duplicates_before ds)
    ∧ lookupMetric (comparison_before rawLen rawCols ds) "Total Records" =
        some rawLen
    ∧ lookupMetric (comparison_before rawLen rawCols ds) ("Missing (" ++ v ++ ")") =
        some 0
    ∧ lookupMetric (comparison_after ds) ("Missing (" ++ v ++ ")") =
        some (missingCount ds v)
    ∧ lookupMetric (comparison_after ds) "Total Records" = some ds.length
    ∧ lookupMetric (comparison_after ds) "Duplicates" = some 0 := by
  refine ⟨rfl, rfl, ?_, ?_, rfl, rfl⟩ <;>
    · simp only [key_vars, List.mem_cons, List.not_mem_nil, or_false] at hv
      rcases hv with h | h | h | h | h <;> rw [h] <;> rfl

/-- C8 witness: the theorem instantiated at the one-record dataset with
a null D3B and variable D3B. -/
theorem c8_audit_relay_witness :
    "D3B" ∈ key_vars
    ∧ (lookupMetric (comparison_before 1 31 exMissingDs) "Duplicates" =
          some (duplicates_before exMissingDs)
      ∧ lookupMetric (comparison_before 1 31 exMissingDs) "Total Records" = some 1
      ∧ lookupMetric (comparison_before 1 31 exMissingDs) ("Missing (" ++ "D3B" ++ ")") =
          some 0
      ∧ lookupMetric (comparison_after exMissingDs) ("Missing (" ++ "D3B" ++ ")") =
          some (missingCount exMissingDs "D3B")
      ∧ lookupMetric (comparison_after exMissingDs) "Total Records" =
          some exMissingDs.length
      ∧ lookupMetric (comparison_after exMissingDs) "Duplicates" = some 0) :=
  ⟨by decide, c8_audit_relay 1 31 exMissingDs "D3B" (by decide)⟩

/-- C9 counterexample: an aborted run is not free of output files.  On
a raw table exposing only GEOID10, the run aborts at the STEP 2
projection with an error naming absent columns, yet the STEP 1 raw-data
info file has already been written. -/
theorem c9_partial_output_cex :
    isAborted (runLoadProject exRawMissing).2 = true
    ∧ (runLoadProject exRawMissing).1 ≠ []
    ∧ "images/step1_raw_data_info.txt" ∈ (runLoadProject exRawMissing).1
    ∧ "NatWalkInd" ∈ errorColumns (runLoadProject exRawMissing).2 := by
  decide

/-- C9 amended: if any required column is absent, the run fails at the
STEP 2 projection with an error naming exactly the absent columns,
before any later stage runs: no cleaned-data row, no statistics
artifact and no other later output is produced — but the STEP 1
raw-data info file has already been written by the time of the
failure. -/
theorem c9_missing_column_aborts (raw : RawTable)
    (h : missingColumns raw ≠ []) :
    (runLoadProject raw).2 = Except.error (missingColumns raw)
    ∧ (runLoadProject raw).1 = ["images/step1_raw_data_info.txt"]
    ∧ "cleaned_data/walkability_cleaned.csv" ∉ (runLoadProject raw).1
    ∧ "images/step8_summary_statistics.csv" ∉ (runLoadProject raw).1
    ∧ isAborted (runLoadProject raw).2 = true := by
  unfold runLoadProject
  rw [if_neg h]
  exact ⟨rfl, rfl, by simp, by simp, rfl⟩

/-- C9 witness: the theorem instantiated at the raw table exposing only
GEOID10. -/
theorem c9_missing_column_aborts_witness :
    missingColumns exRawMissing ≠ []
    ∧ ((runLoadProject exRawMissing).2 =
          Except.error (missingColumns exRawMissing)
      ∧ (runLoadProject exRawMissing).1 = ["images/step1_raw_data_info.txt"]
      ∧ "cleaned_data/walkability_cleaned.csv" ∉ (runLoadProject exRawMissing).1
      ∧ "images/step8_summary_statistics.csv" ∉ (runLoadProject exRawMissing).1
      ∧ isAborted (runLoadProject exRawMissing).2 = true) :=
  ⟨by decide, c9_missing_column_aborts exRawMissing (by decide)⟩

end Walkability
